import Mathlib

/-
  Verification of the cartridge-selection bot (src/main.py).

  The development shallow-embeds the pure core of the program:
  the catalog index built by `load_data_from_sheets` (lines 208-240),
  the helper functions (`normalize_name`, `split_kits_and_items`,
  `get_system_name_from_rows`), and the dialogue handlers
  (`handle_callback`, `handle_text`).

  Python strings are modelled as Lean `String`; the string operations the
  program uses (`strip`, `upper`, `lower`, `split`, `startswith`, `in`,
  slicing at an underscore) are re-implemented structurally over `List Char`
  so that every definition is executable and kernel-reducible.

  Spreadsheet rows (dynamic dicts) are modelled as a record of optional
  string fields; `row.get(k)` returning `None` is `Option.none`, and the
  `str(...)` coercions of the source are the identity on the modelled
  string values.  In-place mutation of a row dict (`row["Артикул"] = ...`)
  is modelled by `normalizeRow`: the mutated row is the value stored in
  every index bucket and in `all_rows`, exactly as aliasing makes it in
  the source.

  Message delivery (`reply_text` / `edit_text` / `send_message`) may fail;
  this is modelled with a delivery oracle `ok : Nat → Bool` consulted per
  send.  The `try/except` of each handler is modelled by `sendThen`: a
  failed send aborts the rest of the branch and runs the `except` reply.
  Localized template rendering is abstract: a sent message records the
  active language and the template key (plus any inline keyboard).
-/

/-! ## Python string primitives -/

/-- The whitespace characters of Python `str.strip()` / `str.split()`
(ASCII subset; the source data and inputs relevant here are ASCII/cyrillic
text without exotic unicode spaces). -/
def isSpaceCh (c : Char) : Bool :=
  c = ' ' ∨ c = '\t' ∨ c = '\n' ∨ c = '\r' ∨ c = '\x0b' ∨ c = '\x0c'

/-- Python `s.strip()`. -/
def pyStrip (s : String) : String :=
  ⟨((s.data.dropWhile isSpaceCh).reverse.dropWhile isSpaceCh).reverse⟩

/-- Python `s.upper()`. -/
def pyUpper (s : String) : String := ⟨s.data.map Char.toUpper⟩

/-- Python `s.lower()`. -/
def pyLower (s : String) : String := ⟨s.data.map Char.toLower⟩

/-- `prefixOfCh a b` : the list `a` is a leading segment of `b`. -/
def prefixOfCh : List Char → List Char → Bool
  | [], _ => true
  | _ :: _, [] => false
  | a :: as, b :: bs => if a = b then prefixOfCh as bs else false

/-- `listIsInfix n h` : `n` occurs contiguously inside `h`
(Python `n in h` for strings). -/
def listIsInfix (needle : List Char) : List Char → Bool
  | [] => prefixOfCh needle []
  | c :: rest => if prefixOfCh needle (c :: rest) then true else listIsInfix needle rest

/-- Python `needle in hay` for strings. -/
def strContains (hay needle : String) : Bool := listIsInfix needle.data hay.data

/-- Python `s.startswith(pre)`. -/
def strStarts (s pre : String) : Bool := prefixOfCh pre.data s.data

/-- Python `s[n:]` (character slicing). -/
def pyDrop (s : String) (n : Nat) : String := ⟨s.data.drop n⟩

/-- Characters of `s` before the first `'.'`. -/
def takeUntilDotCh : List Char → List Char
  | [] => []
  | c :: cs => if c = '.' then [] else c :: takeUntilDotCh cs

/-- Python `str(x).split(".")[0]` : the source's article normalization
(truncate a decimal suffix such as `"20001.0" → "20001"`). -/
def stripDecimal (s : String) : String := ⟨takeUntilDotCh s.data⟩

/-- Helper of `pyTokens`: whitespace-splitting with an accumulator for the
current (reversed) word. -/
def wordsAux (cur : List Char) : List Char → List (List Char)
  | [] => if cur.isEmpty then [] else [cur.reverse]
  | c :: cs =>
    if isSpaceCh c then
      if cur.isEmpty then wordsAux [] cs else cur.reverse :: wordsAux [] cs
    else wordsAux (c :: cur) cs

/-- Python `s.split()` (split on whitespace runs, no empty tokens). -/
def pyTokens (s : String) : List String := (wordsAux [] s.data).map (fun cs => ⟨cs⟩)

/-- `s.split()[0]`, made total: `none` models the `IndexError` raised on a
whitespace-only string. -/
def firstToken (s : String) : Option String := (pyTokens s).head?

/-- Helper of `splitFirstUnder`. -/
def splitFirstUnderChars : List Char → Option (List Char × List Char)
  | [] => none
  | c :: cs =>
    if c = '_' then some ([], cs)
    else
      match splitFirstUnderChars cs with
      | some (a, b) => some (c :: a, b)
      | none => none

/-- Split a string at its first underscore; `none` when there is none
(models the `ValueError` of unpacking `data.split("_", 2)` into three
names when only two parts exist). -/
def splitFirstUnder (s : String) : Option (String × String) :=
  match splitFirstUnderChars s.data with
  | some (a, b) => some (⟨a⟩, ⟨b⟩)
  | none => none

/-- Python `v in xs` for a list of strings. -/
def memStr : List String → String → Bool
  | [], _ => false
  | x :: xs, a => if x = a then true else memStr xs a

/-! ## Data model: rows and the catalog index -/

/-- One spreadsheet record.  `none` models an absent key (`row.get(k)`
returning `None`); `some s` models a present value whose `str()` form
is `s`. -/
structure Row where
  sysArt : Option String    -- "Артикул"
  sysName : Option String   -- "Название системы"
  cartArt : Option String   -- "Артикул расходника"
  cartName : Option String  -- "Название расходника"
  link : Option String      -- "ссылка"
deriving DecidableEq

/-- `str(r.get(key, ""))`. -/
def pyGetStr (o : Option String) : String := o.getD ""

/-- Source `normalize_name` (line 191): `(name or "").strip().upper()`. -/
def normalize_name (name : String) : String := pyUpper (pyStrip name)

/-- Ordered association-list lookup (Python dict lookup; keys are unique
by construction and iteration order is insertion order). -/
def alistGet {α : Type} : List (String × α) → String → Option α
  | [], _ => none
  | (k0, v) :: rest, k => if k0 = k then some v else alistGet rest k

/-- `d.get(k, [])` for a dict of lists. -/
def bucketGet {α : Type} (m : List (String × List α)) (k : String) : List α :=
  (alistGet m k).getD []

/-- `d[k].append(v)` on a `defaultdict(list)` (creates the bucket at the
end of the insertion order if absent). -/
def bucketAdd {α : Type} : List (String × List α) → String → α → List (String × List α)
  | [], k, v => [(k, [v])]
  | (k0, vs) :: rest, k, v =>
    if k0 = k then (k0, vs ++ [v]) :: rest else (k0, vs) :: bucketAdd rest k v

/-- `if v not in d[k]: d[k].append(v)` on a `defaultdict(list)`
(accessing `d[k]` creates the bucket if absent). -/
def bucketAddNew : List (String × List String) → String → String → List (String × List String)
  | [], k, v => [(k, [v])]
  | (k0, vs) :: rest, k, v =>
    if k0 = k then (k0, if memStr vs v then vs else vs ++ [v]) :: rest
    else (k0, vs) :: bucketAddNew rest k v

/-- The three derived lookup structures plus `all_rows`
(globals of lines 185-188, rebuilt by `load_data_from_sheets`). -/
structure CatalogIndex where
  systemsByArticle : List (String × List Row)
  systemsByName : List (String × List String)
  cartridgesByArticle : List (String × List Row)
  allRows : List Row
deriving DecidableEq

/-- The in-place mutation the indexing loop performs on a row dict:
for a row that passes the `None` check, `row["Артикул"]` is replaced by
its decimal-stripped form (line 222), and, when a cartridge article is
present and non-empty, `row["Артикул расходника"]` likewise (line 232).
Dropped rows are left untouched. -/
def normalizeRow (r : Row) : Row :=
  match r.sysArt, r.sysName with
  | some sa, some _ =>
    let r1 : Row := { r with sysArt := some (stripDecimal sa) }
    match r.cartArt with
    | some c => if c = "" then r1 else { r1 with cartArt := some (stripDecimal c) }
    | none => r1
  | _, _ => r

/-- The malformed-row check of line 218: a row is processed only when both
the system article and the system name keys are present. -/
def keepsRow (r : Row) : Bool := r.sysArt.isSome && r.sysName.isSome

/-- The normalized system-article key of a row. -/
def sysArtKey (r : Row) : String := stripDecimal (pyGetStr r.sysArt)

/-- One iteration of the indexing loop (lines 213-233). -/
def buildStep (idx : CatalogIndex) (r : Row) : CatalogIndex :=
  match r.sysArt, r.sysName with
  | some sa, some sn =>
    { systemsByArticle := bucketAdd idx.systemsByArticle (stripDecimal sa) (normalizeRow r)
      systemsByName :=
        if normalize_name sn = "" then idx.systemsByName
        else bucketAddNew idx.systemsByName (normalize_name sn) (stripDecimal sa)
      cartridgesByArticle :=
        match r.cartArt with
        | some c =>
          if c = "" then idx.cartridgesByArticle
          else bucketAdd idx.cartridgesByArticle (stripDecimal c) (normalizeRow r)
        | none => idx.cartridgesByArticle
      allRows := idx.allRows }
  | _, _ => idx

/-- The pure indexing core of `load_data_from_sheets` (lines 208-233):
rebuild the three lookup structures from a row sequence; `all_rows` keeps
every fetched row, mutated in place by the loop. -/
def build (rows : List Row) : CatalogIndex :=
  let base := rows.foldl buildStep ⟨[], [], [], []⟩
  { base with allRows := rows.map normalizeRow }

/-- `systems_by_article.get(a, [])` — the system-article lookup
(lines 404, 452, 486, ...). -/
def lookupBySystemArticle (idx : CatalogIndex) (a : String) : List Row :=
  bucketGet idx.systemsByArticle a

/-- The inner loop of the substring fallback (lines 472-474): append each
article of a bucket unless already collected. -/
def dedupInto (acc : List String) (arts : List String) : List String :=
  arts.foldl (fun acc2 a => if memStr acc2 a then acc2 else acc2 ++ [a]) acc

/-- The substring fallback of lines 470-474: union (dedup, first-seen
order) of the article buckets of every name key containing the query. -/
def substringFallback (m : List (String × List String)) (q : String) : List String :=
  m.foldl (fun acc kv => if strContains kv.1 q then dedupInto acc kv.2 else acc) []

/-- Union of all article buckets of the name index, first-seen order. -/
def allNameArticles (m : List (String × List String)) : List String :=
  m.foldl (fun acc kv => dedupInto acc kv.2) []

/-- The name lookup of lines 466-474: normalize the input, try the exact
key, and only when that list is empty fall back to the substring union. -/
def lookupSystemArticlesByName (idx : CatalogIndex) (text : String) : List String :=
  let q := normalize_name text
  let exact := bucketGet idx.systemsByName q
  if exact.isEmpty then substringFallback idx.systemsByName q else exact

/-- The kit heuristic of line 248: the lower-cased cartridge name contains
one of the bundle keywords. -/
def isKitRow (r : Row) : Bool :=
  let cartName := pyLower (pyGetStr r.cartName)
  ["комплект", "набор", "kit", "set"].any (fun w => strContains cartName w)

/-- Source `split_kits_and_items` (lines 243-252). -/
def split_kits_and_items (rows : List Row) : List Row × List Row :=
  rows.foldl
    (fun acc r => if isKitRow r then (acc.1 ++ [r], acc.2) else (acc.1, acc.2 ++ [r]))
    ([], [])

/-- Source `get_system_name_from_rows` (lines 255-258). -/
def get_system_name_from_rows (rows : List Row) : String :=
  match rows with
  | [] => ""
  | r :: _ => pyStrip (pyGetStr r.sysName)

/-- The distinct-system-article collection of lines 524-528 (and its
duplicate at 585-589): normalized, non-empty, dedup first-seen. -/
def collectSysArticles (rows : List Row) : List String :=
  rows.foldl
    (fun acc r =>
      let a := stripDecimal (pyGetStr r.sysArt)
      if a = "" then acc else if memStr acc a then acc else acc ++ [a])
    []

/-- The cartridge-name scan of lines 565-572: over `all_rows`, collect the
set of normalized cartridge articles of rows whose normalized cartridge
name contains the query.  The Python `set` is modelled as a first-seen
deduplicated list (size and sole element of a singleton agree). -/
def matchedCartArts (rows : List Row) (q : String) : List String :=
  rows.foldl
    (fun acc r =>
      let name := normalize_name (pyGetStr r.cartName)
      let cartArt := stripDecimal (pyGetStr r.cartArt)
      if cartArt = "" then acc
      else if strContains name q then
        (if memStr acc cartArt then acc else acc ++ [cartArt])
      else acc)
    []

/-! ## Dialogue engine: sessions, messages, delivery -/

/-- A button label: either a localized template label (`t[key]`) rendered
abstractly, or a literal f-string label. -/
inductive BtnLabel
  | t (lang : String) (key : String)
  | plain (s : String)
deriving DecidableEq

/-- An inline keyboard button: label plus `callback_data`. -/
structure Btn where
  label : BtnLabel
  data : String
deriving DecidableEq

/-- An outbound message: either a localized template (`t[key]`, with an
optional inline keyboard, flattened row-wise), or the composed
system-info message of `send_system_info` (determined by the language,
the system article and the row sequence it renders). -/
inductive Msg
  | templ (lang : String) (key : String) (kb : List Btn)
  | sysInfo (lang : String) (sysArticle : String) (rows : List Row)
deriving DecidableEq

/-- Per-user session state (`user_states[uid]`): selected language
(default `"ru"`) and current dialogue step (default `""`). -/
structure Session where
  lang : String
  step : String
deriving DecidableEq

/-- A handler's view of the world: the session, the messages delivered so
far in this turn, and the number of delivery attempts made (index for the
delivery oracle). -/
structure DState where
  sess : Session
  sent : List Msg
  nSends : Nat
deriving DecidableEq

/-- Attempt one outbound delivery: the oracle decides whether this
`await send(...)` succeeds or raises. -/
def trySend (ok : Nat → Bool) (s : DState) (m : Msg) : DState × Bool :=
  if ok s.nSends
  then ({ s with sent := s.sent ++ [m], nSends := s.nSends + 1 }, true)
  else ({ s with nSends := s.nSends + 1 }, false)

/-- `set_user_step`. -/
def withStep (s : DState) (st : String) : DState :=
  { s with sess := { s.sess with step := st } }

/-- `set_user_lang`. -/
def withLang (s : DState) (l : String) : DState :=
  { s with sess := { s.sess with lang := l } }

/-- The `except` branch of each handler (lines 430-432, 641-643): reply
with the generic localized error message.  A failure of this reply itself
propagates uncaught; only its delivery effects are modelled. -/
def exceptReply (ok : Nat → Bool) (s : DState) (lang : String) : DState :=
  (trySend ok s (Msg.templ lang "error" [])).1

/-- `await send(m)` inside the handler's `try`: on success continue with
`k`, on failure fall to the `except` reply (in language `lang`). -/
def sendThen (ok : Nat → Bool) (s : DState) (m : Msg) (lang : String)
    (k : DState → DState) : DState :=
  let r := trySend ok s m
  if r.2 then k r.1 else exceptReply ok r.1 lang

/-- Delivery oracle under which every send succeeds. -/
def okAll : Nat → Bool := fun _ => true

/-- Delivery oracle under which the first send of the turn fails and every
later one succeeds. -/
def failFirstSend : Nat → Bool := fun n => decide (0 < n)

/-- The language codes of lines 54-57. -/
def langCodes : List String := ["ru", "en", "kk", "uz"]

/-- `lang_keyboard` (lines 283-294), rows flattened. -/
def lang_keyboard : List Btn :=
  [⟨BtnLabel.plain "🇷🇺 Русский", "lang_ru"⟩, ⟨BtnLabel.plain "🇬🇧 English", "lang_en"⟩,
   ⟨BtnLabel.plain "🇰🇿 Қазақша", "lang_kk"⟩, ⟨BtnLabel.plain "🇺🇿 O‘zbekcha", "lang_uz"⟩]

/-- `main_menu_keyboard` (lines 297-304). -/
def main_menu_keyboard (lang : String) : List Btn :=
  [⟨BtnLabel.t lang "btn_regular", "menu_regular"⟩,
   ⟨BtnLabel.t lang "btn_pro", "menu_pro"⟩,
   ⟨BtnLabel.t lang "btn_lang", "menu_lang"⟩]

/-- `regular_menu_keyboard` (lines 307-315). -/
def regular_menu_keyboard (lang : String) : List Btn :=
  [⟨BtnLabel.t lang "btn_reg_sys_name", "reg_sys_name"⟩,
   ⟨BtnLabel.t lang "btn_reg_cart_art", "reg_cart_art"⟩,
   ⟨BtnLabel.t lang "btn_reg_cart_name", "reg_cart_name"⟩,
   ⟨BtnLabel.t lang "back_to_menu", "back_main"⟩]

/-- The main-menu render shared by many branches. -/
def menuMsg (lang : String) : Msg :=
  Msg.templ lang "main_menu" (main_menu_keyboard lang)

/-- The disambiguation label `f"{sys_name} (арт. {a})"`. -/
def sysLabel (idx : CatalogIndex) (a : String) : BtnLabel :=
  BtnLabel.plain (get_system_name_from_rows (bucketGet idx.systemsByArticle a)
    ++ " (арт. " ++ a ++ ")")

/-- Source `handle_callback` (lines 341-432) for one user: dispatch on the
selection token `data`.  The `query.answer()` acknowledgment sends no
user-visible message and is not modelled.  Every branch mutates the
session *before* awaiting delivery, exactly as in the source. -/
def handle_callback (idx : CatalogIndex) (data : String) (ok : Nat → Bool)
    (s : DState) : DState :=
  let lang := s.sess.lang
  if strStarts data "lang_" then
    let langCode := pyDrop data 5
    let s1 := if memStr langCodes langCode then withLang s langCode else s
    let lang1 := if memStr langCodes langCode then langCode else lang
    let s2 := withStep s1 "main_menu"
    sendThen ok s2 (menuMsg lang1) lang1 id
  else if data = "menu_regular" then
    let s1 := withStep s "regular_menu"
    sendThen ok s1 (Msg.templ lang "ask_regular_what_known" (regular_menu_keyboard lang)) lang id
  else if data = "menu_pro" then
    sendThen ok (withStep s "await_pro_article") (Msg.templ lang "ask_pro_art" []) lang id
  else if data = "menu_lang" then
    sendThen ok (withStep s "choose_language") (Msg.templ lang "welcome" lang_keyboard) lang id
  else if data = "back_main" then
    sendThen ok (withStep s "main_menu") (menuMsg lang) lang id
  else if data = "reg_sys_name" then
    sendThen ok (withStep s "await_sys_name") (Msg.templ lang "ask_sys_name" []) lang id
  else if data = "reg_cart_art" then
    sendThen ok (withStep s "await_cart_article") (Msg.templ lang "ask_cart_art" []) lang id
  else if data = "reg_cart_name" then
    sendThen ok (withStep s "await_cart_name") (Msg.templ lang "ask_cart_name" []) lang id
  else if strStarts data "sys_" then
    let sysArticle := pyDrop data 4
    let rows := bucketGet idx.systemsByArticle sysArticle
    sendThen ok s (Msg.sysInfo lang sysArticle rows) lang (fun s1 =>
      sendThen ok (withStep s1 "main_menu") (menuMsg lang) lang id)
  else if strStarts data "sysfromcart_" then
    match splitFirstUnder (pyDrop data 12) with
    | none => exceptReply ok s lang
    | some (sysArticle, _) =>
      let rows := bucketGet idx.systemsByArticle sysArticle
      sendThen ok s (Msg.sysInfo lang sysArticle rows) lang (fun s1 =>
        sendThen ok (withStep s1 "main_menu") (menuMsg lang) lang id)
  else s

/-- Source `handle_text` (lines 435-643) for one user: dispatch on the
current step; `text0` is the raw message text. -/
def handle_text (idx : CatalogIndex) (text0 : String) (ok : Nat → Bool)
    (s : DState) : DState :=
  let lang := s.sess.lang
  let text := pyStrip text0
  let step := s.sess.step
  if step = "" then
    sendThen ok (withStep s "choose_language") (Msg.templ lang "welcome" lang_keyboard) lang id
  else if step = "await_pro_article" then
    match firstToken text with
    | none => exceptReply ok s lang
    | some sysArticle =>
      let rows := bucketGet idx.systemsByArticle sysArticle
      let m := if rows.isEmpty then Msg.templ lang "no_systems_found" []
               else Msg.sysInfo lang sysArticle rows
      sendThen ok s m lang (fun s1 =>
        sendThen ok (withStep s1 "main_menu") (menuMsg lang) lang id)
  else if step = "await_sys_name" then
    let candidates := lookupSystemArticlesByName idx text
    if candidates.isEmpty then
      sendThen ok s (Msg.templ lang "no_systems_found" []) lang (fun s1 =>
        sendThen ok (withStep s1 "main_menu") (menuMsg lang) lang id)
    else if candidates.length = 1 then
      let a := candidates.headD ""
      let rows := bucketGet idx.systemsByArticle a
      sendThen ok s (Msg.sysInfo lang a rows) lang (fun s1 =>
        sendThen ok (withStep s1 "main_menu") (menuMsg lang) lang id)
    else
      let buttons := candidates.map (fun a => Btn.mk (sysLabel idx a) ("sys_" ++ a))
        ++ [⟨BtnLabel.t lang "back_to_menu", "back_main"⟩]
      sendThen ok (withStep s "await_choose_system_for_name")
        (Msg.templ lang "choose_system" buttons) lang id
  else if step = "await_cart_article" then
    match firstToken text with
    | none => exceptReply ok s lang
    | some cartArt =>
      let rows := bucketGet idx.cartridgesByArticle cartArt
      if rows.isEmpty then
        sendThen ok s (Msg.templ lang "no_cartridges_found" []) lang (fun s1 =>
          sendThen ok (withStep s1 "main_menu") (menuMsg lang) lang id)
      else
        let sysArticles := collectSysArticles rows
        if sysArticles.length = 1 then
          let a := sysArticles.headD ""
          sendThen ok s (Msg.sysInfo lang a (bucketGet idx.systemsByArticle a)) lang (fun s1 =>
            sendThen ok (withStep s1 "main_menu") (menuMsg lang) lang id)
        else
          let buttons := sysArticles.map (fun a =>
              Btn.mk (sysLabel idx a) ("sysfromcart_" ++ a ++ "_" ++ cartArt))
            ++ [⟨BtnLabel.t lang "back_to_menu", "back_main"⟩]
          sendThen ok (withStep s "await_choose_system_for_cart")
            (Msg.templ lang "choose_system_for_cart" buttons) lang id
  else if step = "await_cart_name" then
    let q := normalize_name text
    let matched := matchedCartArts idx.allRows q
    if matched.isEmpty then
      sendThen ok s (Msg.templ lang "no_cartridges_found" []) lang (fun s1 =>
        sendThen ok (withStep s1 "main_menu") (menuMsg lang) lang id)
    else if matched.length = 1 then
      let cartArt := matched.headD ""
      let rows := bucketGet idx.cartridgesByArticle cartArt
      let sysArticles := collectSysArticles rows
      if sysArticles.length = 1 then
        let a := sysArticles.headD ""
        sendThen ok s (Msg.sysInfo lang a (bucketGet idx.systemsByArticle a)) lang (fun s1 =>
          sendThen ok (withStep s1 "main_menu") (menuMsg lang) lang id)
      else
        let buttons := sysArticles.map (fun a =>
            Btn.mk (sysLabel idx a) ("sysfromcart_" ++ a ++ "_" ++ cartArt))
          ++ [⟨BtnLabel.t lang "back_to_menu", "back_main"⟩]
        sendThen ok (withStep s "await_choose_system_for_cart")
          (Msg.templ lang "choose_system_for_cart" buttons) lang id
    else
      sendThen ok s (Msg.templ lang "no_cartridges_found" []) lang (fun s1 =>
        sendThen ok (withStep s1 "main_menu") (menuMsg lang) lang id)
  else if step = "main_menu" ∨ step = "regular_menu" ∨ step = "choose_language" then
    sendThen ok (withStep s "main_menu") (menuMsg lang) lang id
  else
    sendThen ok s (Msg.templ lang "error" []) lang id

/-! ## Index lemmas -/

theorem bucketGet_bucketAdd {α : Type} (m : List (String × List α)) (k : String) (v : α)
    (k' : String) :
    bucketGet (bucketAdd m k v) k'
      = if k = k' then bucketGet m k' ++ [v] else bucketGet m k' := by
  induction m with
  | nil => by_cases h : k = k' <;> simp [bucketAdd, bucketGet, alistGet, h]
  | cons p rest ih =>
    obtain ⟨k0, vs⟩ := p
    by_cases h0 : k0 = k
    · subst h0
      by_cases h' : k0 = k' <;> simp [bucketAdd, bucketGet, alistGet, h']
    · by_cases h' : k0 = k'
      · subst h'
        have hkk : ¬ k = k0 := fun h => h0 h.symm
        simp [bucketAdd, bucketGet, alistGet, h0, hkk]
      · simpa [bucketAdd, bucketGet, alistGet, h0, h'] using ih

theorem foldl_buildStep_sysArt (rows : List Row) (idx : CatalogIndex) (a : String) :
    bucketGet (rows.foldl buildStep idx).systemsByArticle a
      = bucketGet idx.systemsByArticle a
        ++ (rows.filter (fun r => keepsRow r && decide (sysArtKey r = a))).map normalizeRow := by
  induction rows generalizing idx with
  | nil => simp
  | cons r rows ih =>
    rw [List.foldl_cons, ih]
    rcases hA : r.sysArt with _ | sa
    · simp [buildStep, hA, List.filter_cons, keepsRow]
    · rcases hB : r.sysName with _ | sn
      · simp [buildStep, hA, hB, List.filter_cons, keepsRow]
      · have hk : keepsRow r = true := by simp [keepsRow, hA, hB]
        have hkey : sysArtKey r = stripDecimal sa := by simp [sysArtKey, hA, pyGetStr]
        by_cases ha : stripDecimal sa = a
        · simp [buildStep, hA, hB, bucketGet_bucketAdd, ha, hk, hkey, List.filter_cons,
            List.append_assoc]
        · simp [buildStep, hA, hB, bucketGet_bucketAdd, ha, hk, hkey, List.filter_cons]

theorem lookup_build_characterization (rs : List Row) (a : String) :
    lookupBySystemArticle (build rs) a
      = (rs.filter (fun r => keepsRow r && decide (sysArtKey r = a))).map normalizeRow := by
  have h := foldl_buildStep_sysArt rs ⟨[], [], [], []⟩ a
  simpa [lookupBySystemArticle, build, bucketGet, alistGet] using h

/-- C1 counterexample input: a row carrying a system article but no system
name key. -/
def c1BadRow : Row := ⟨some "20001", none, none, none, none⟩

/-- C1 (counterexample): for `rs = [c1BadRow]` and `a = "20001"`, the claimed
round trip fails: the subsequence of `rs` whose system article normalizes to
`"20001"` is `[c1BadRow]`, yet `LookupBySystemArticle` on the built index
returns the empty sequence, because the indexing loop drops any row whose
system-name key is absent (line 218 of src/main.py). -/
theorem c1_lookup_counterexample :
    lookupBySystemArticle (build [c1BadRow]) "20001" = []
    ∧ ([c1BadRow].filter
        (fun r => r.sysArt.isSome && decide (sysArtKey r = "20001"))).map normalizeRow
        = [c1BadRow]
    ∧ lookupBySystemArticle (build [c1BadRow]) "20001"
        ≠ ([c1BadRow].filter
            (fun r => r.sysArt.isSome && decide (sysArtKey r = "20001"))).map normalizeRow :=
  ⟨by decide, by decide, by decide⟩

/-- C1 (amended): after `Build(rows)`, `LookupBySystemArticle(a)` returns
exactly the subsequence of `rows` that have **both** a system article and a
system name and whose system article normalizes (decimal suffix stripped)
to `a`, in the original relative order; each returned row is the input row
with its article fields stored in normalized form (the in-place mutation of
lines 222 and 232). -/
theorem c1_lookup_by_system_article (rs : List Row) (a : String) :
    lookupBySystemArticle (build rs) a
      = (rs.filter (fun r => keepsRow r && decide (sysArtKey r = a))).map normalizeRow :=
  lookup_build_characterization rs a

theorem buildStep_skip (idx : CatalogIndex) (r : Row) (h : keepsRow r = false) :
    buildStep idx r = idx := by
  rcases hA : r.sysArt with _ | sa
  · simp [buildStep, hA]
  · rcases hB : r.sysName with _ | sn
    · simp [buildStep, hA, hB]
    · exfalso; simp [keepsRow, hA, hB] at h

theorem foldl_buildStep_filter (rows : List Row) (idx : CatalogIndex) :
    rows.foldl buildStep idx = (rows.filter keepsRow).foldl buildStep idx := by
  induction rows generalizing idx with
  | nil => rfl
  | cons r rows ih =>
    by_cases hk : keepsRow r = true
    · simp [List.filter_cons, hk, List.foldl_cons, ih]
    · have hk' : keepsRow r = false := by simpa using hk
      simp [List.filter_cons, hk', List.foldl_cons, buildStep_skip idx r hk', ih]

/-- C2 counterexample input: a system article and even a cartridge article,
but no system-name key. -/
def c2BadRow : Row := ⟨some "30001", none, some "99", some "X", none⟩

/-- C2 (counterexample): a row that has a system article (`"30001"`) but no
system name is **not** indexed under that article — the built system index
is empty, contradicting the claim that only rows lacking both fields are
dropped. -/
theorem c2_drop_counterexample :
    c2BadRow.sysArt = some "30001" ∧ c2BadRow.sysName = none
    ∧ (build [c2BadRow]).systemsByArticle = []
    ∧ lookupBySystemArticle (build [c2BadRow]) "30001" = [] :=
  ⟨rfl, rfl, by decide, by decide⟩

/-- C2 (amended): a row is dropped as malformed whenever it lacks a system
article **or** a system name (line 218 checks `is None` with `or`): building
from `rows` gives the same system index as building from the rows that have
both fields, and every row with both fields is indexed under its normalized
system article. -/
theorem c2_drop_semantics (rs : List Row) :
    (build rs).systemsByArticle = (build (rs.filter keepsRow)).systemsByArticle
    ∧ ∀ r, r ∈ rs → keepsRow r = true →
        normalizeRow r ∈ lookupBySystemArticle (build rs) (sysArtKey r) := by
  constructor
  · simp [build, foldl_buildStep_filter rs]
  · intro r hr hk
    rw [lookup_build_characterization]
    exact List.mem_map_of_mem _ (List.mem_filter.mpr ⟨hr, by simp [hk]⟩)

/-- C2 witness input: a well-formed row. -/
def c2GoodRow : Row := ⟨some "20001.0", some "Sys", none, none, none⟩

/-- C2 (witness): the amended drop semantics at a concrete input. -/
theorem c2_drop_witness :
    (build [c2GoodRow]).systemsByArticle
        = (build ([c2GoodRow].filter keepsRow)).systemsByArticle
    ∧ normalizeRow c2GoodRow ∈ lookupBySystemArticle (build [c2GoodRow]) (sysArtKey c2GoodRow) :=
  ⟨(c2_drop_semantics [c2GoodRow]).1,
   (c2_drop_semantics [c2GoodRow]).2 c2GoodRow (by decide) (by decide)⟩

/-! ## Name-index invariant and the name lookup -/

theorem alistGet_mem {α : Type} (m : List (String × α)) (k : String) (v : α)
    (h : alistGet m k = some v) : (k, v) ∈ m := by
  induction m with
  | nil => simp [alistGet] at h
  | cons p rest ih =>
    obtain ⟨k0, v0⟩ := p
    by_cases h0 : k0 = k
    · subst h0
      simp [alistGet] at h
      simp [h]
    · simp [alistGet, h0] at h
      exact List.mem_cons_of_mem _ (ih h)

/-- Every bucket of a name index is a non-empty list. -/
def nameBucketsNonEmpty (m : List (String × List String)) : Prop :=
  ∀ p ∈ m, p.2 ≠ ([] : List String)

theorem bucketAddNew_nonempty (m : List (String × List String)) (k v : String)
    (h : nameBucketsNonEmpty m) : nameBucketsNonEmpty (bucketAddNew m k v) := by
  induction m with
  | nil =>
    intro p hp
    simp [bucketAddNew] at hp
    simp [hp]
  | cons q rest ih =>
    obtain ⟨k0, vs⟩ := q
    have hrest : nameBucketsNonEmpty rest := fun p hp => h p (List.mem_cons_of_mem _ hp)
    intro p hp
    by_cases h0 : k0 = k
    · simp [bucketAddNew, h0] at hp
      rcases hp with hp | hp
      · subst hp
        by_cases hm : memStr vs v = true
        · simpa [hm] using h (k0, vs) (List.mem_cons_self _ _)
        · simp [hm]
      · exact hrest p hp
    · simp [bucketAddNew, h0] at hp
      rcases hp with hp | hp
      · subst hp
        exact h (k0, vs) (List.mem_cons_self _ _)
      · exact ih hrest p hp

theorem buildStep_names_nonempty (idx : CatalogIndex) (r : Row)
    (h : nameBucketsNonEmpty idx.systemsByName) :
    nameBucketsNonEmpty (buildStep idx r).systemsByName := by
  rcases hA : r.sysArt with _ | sa
  · simpa [buildStep, hA] using h
  · rcases hB : r.sysName with _ | sn
    · simpa [buildStep, hA, hB] using h
    · by_cases hn : normalize_name sn = ""
      · simpa [buildStep, hA, hB, hn] using h
      · simpa [buildStep, hA, hB, hn] using bucketAddNew_nonempty _ _ _ h

theorem build_names_nonempty (rows : List Row) :
    nameBucketsNonEmpty (build rows).systemsByName := by
  have main : ∀ (idx : CatalogIndex), nameBucketsNonEmpty idx.systemsByName →
      nameBucketsNonEmpty ((rows.foldl buildStep idx).systemsByName) := by
    induction rows with
    | nil => intro idx h; simpa using h
    | cons r rows ih => intro idx h; exact ih _ (buildStep_names_nonempty idx r h)
  have h0 : nameBucketsNonEmpty (([] : List (String × List String))) := by
    intro p hp; simp at hp
  simpa [build] using main ⟨[], [], [], []⟩ h0

/-- C3: exact-then-substring precedence of the name lookup (lines 466-474).
If the normalized query is a key of the built name index, the lookup
returns exactly that key's article list (no substring matches are added);
if it is not a key, the lookup returns the substring fallback: the
deduplicated, first-seen-order union of the article lists of all keys
containing the normalized query.  (In a built index a present key always
has a non-empty article list, so the `if not candidate_articles` test of
line 469 coincides with key absence.) -/
theorem c3_name_lookup_precedence (rows : List Row) (text : String) :
    (∀ arts, alistGet (build rows).systemsByName (normalize_name text) = some arts →
        lookupSystemArticlesByName (build rows) text = arts)
    ∧ (alistGet (build rows).systemsByName (normalize_name text) = none →
        lookupSystemArticlesByName (build rows) text
          = substringFallback (build rows).systemsByName (normalize_name text)) := by
  constructor
  · intro arts h
    have hne : arts ≠ [] :=
      build_names_nonempty rows (normalize_name text, arts) (alistGet_mem _ _ _ h)
    have hfalse : arts.isEmpty = false := by
      cases arts with
      | nil => exact absurd rfl hne
      | cons a l => rfl
    simp [lookupSystemArticlesByName, bucketGet, h, hfalse]
  · intro h
    simp [lookupSystemArticlesByName, bucketGet, h]

/-- C3 witness input. -/
def c3Rows : List Row := [⟨some "1", some "Geyser", none, none, none⟩]

/-- C3 (witness): the precedence theorem applied at a concrete index and
query with an exact normalized-name match. -/
theorem c3_name_lookup_witness :
    lookupSystemArticlesByName (build c3Rows) "geyser" = ["1"] :=
  (c3_name_lookup_precedence c3Rows "geyser").1 ["1"] (by decide)

/-! ## The empty-query substring fallback (C10) -/

theorem listIsInfix_nil (l : List Char) : listIsInfix [] l = true := by
  cases l <;> simp [listIsInfix, prefixOfCh]

theorem strContains_empty_needle (h : String) : strContains h "" = true := by
  have heq : strContains h "" = listIsInfix [] h.data := rfl
  rw [heq, listIsInfix_nil]

theorem substringFallback_empty (m : List (String × List String)) :
    substringFallback m "" = allNameArticles m := by
  have aux : ∀ (mm : List (String × List String)) (acc : List String),
      mm.foldl (fun acc kv => if strContains kv.1 "" then dedupInto acc kv.2 else acc) acc
        = mm.foldl (fun acc kv => dedupInto acc kv.2) acc := by
    intro mm
    induction mm with
    | nil => intro acc; rfl
    | cons kv rest ih =>
      intro acc
      simp [List.foldl_cons, strContains_empty_needle, ih]
  exact aux m []

/-- C10: in the name lookup, an input that normalizes to the empty string
(and with `""` not a key of the name index, as it never is in a built
index) matches every key in the substring fallback — the empty string is a
substring of every name — so the lookup returns the union of **all**
article buckets of the name index, deduplicated in first-seen order,
instead of an empty result. -/
theorem c10_empty_query_matches_all (rows : List Row) (text : String)
    (hq : normalize_name text = "")
    (hnk : alistGet (build rows).systemsByName "" = none) :
    lookupSystemArticlesByName (build rows) text
      = allNameArticles (build rows).systemsByName := by
  simp [lookupSystemArticlesByName, hq, bucketGet, hnk, substringFallback_empty]

/-- C10 witness input. -/
def c10Rows : List Row :=
  [⟨some "1", some "Alpha", none, none, none⟩, ⟨some "2", some "Beta", none, none, none⟩]

/-- C10 (witness): the empty-normalizing query `" "` returns every article
of the name index, in first-seen order. -/
theorem c10_empty_query_witness :
    lookupSystemArticlesByName (build c10Rows) " "
        = allNameArticles (build c10Rows).systemsByName
    ∧ allNameArticles (build c10Rows).systemsByName = ["1", "2"] :=
  ⟨c10_empty_query_matches_all c10Rows " " (by decide) (by decide), by decide⟩

/-! ## Classify (split_kits_and_items) is a partition (C8) -/

theorem split_kits_aux (rows : List Row) (k0 s0 : List Row) :
    rows.foldl
        (fun acc r => if isKitRow r then (acc.1 ++ [r], acc.2) else (acc.1, acc.2 ++ [r]))
        (k0, s0)
      = (k0 ++ rows.filter isKitRow, s0 ++ rows.filter (fun r => !(isKitRow r))) := by
  induction rows generalizing k0 s0 with
  | nil => simp
  | cons r rows ih =>
    by_cases hk : isKitRow r = true
    · simp [List.foldl_cons, hk, ih, List.filter_cons, List.append_assoc]
    · have hk' : isKitRow r = false := by simpa using hk
      simp [List.foldl_cons, hk', ih, List.filter_cons, List.append_assoc]

theorem split_kits_eq_filter (rows : List Row) :
    split_kits_and_items rows
      = (rows.filter isKitRow, rows.filter (fun r => !(isKitRow r))) := by
  simpa [split_kits_and_items] using split_kits_aux rows [] []

/-- C8: `Classify` (`split_kits_and_items`) partitions its input: the two
outputs concatenated are a permutation of the input (so every input row,
counted with multiplicity, lands in exactly one output and their union as
sets is the input set), the outputs are disjoint, every input row is in one
of them, and each output is a sublist of the input (relative order
preserved). -/
theorem c8_classify_partition (rows : List Row) :
    ((split_kits_and_items rows).1 ++ (split_kits_and_items rows).2).Perm rows
    ∧ (∀ r, r ∈ (split_kits_and_items rows).1 → r ∉ (split_kits_and_items rows).2)
    ∧ (∀ r, r ∈ rows → r ∈ (split_kits_and_items rows).1 ∨ r ∈ (split_kits_and_items rows).2)
    ∧ List.Sublist (split_kits_and_items rows).1 rows
    ∧ List.Sublist (split_kits_and_items rows).2 rows := by
  rw [split_kits_eq_filter]
  refine ⟨List.filter_append_perm _ _, ?_, ?_, List.filter_sublist _, List.filter_sublist _⟩
  · intro r h1 h2
    rw [List.mem_filter] at h1 h2
    rw [h1.2] at h2
    simp at h2
  · intro r hr
    by_cases hk : isKitRow r = true
    · exact Or.inl (List.mem_filter.mpr ⟨hr, hk⟩)
    · exact Or.inr (List.mem_filter.mpr ⟨hr, by simpa using hk⟩)

/-- C8 witness inputs. -/
def c8KitRow : Row := ⟨some "1", some "S", some "10", some "Full Kit", none⟩

/-- A non-kit row for the C8 witness. -/
def c8SingleRow : Row := ⟨some "1", some "S", some "11", some "CBC 10", none⟩

/-- The C8 witness row list. -/
def c8Rows : List Row := [c8KitRow, c8SingleRow]

/-- C8 (witness): the partition theorem applied at a concrete row list with
one kit row and one single row. -/
theorem c8_classify_witness :
    ((split_kits_and_items c8Rows).1 ++ (split_kits_and_items c8Rows).2).Perm c8Rows
    ∧ c8KitRow ∉ (split_kits_and_items c8Rows).2
    ∧ (c8SingleRow ∈ (split_kits_and_items c8Rows).1
        ∨ c8SingleRow ∈ (split_kits_and_items c8Rows).2) :=
  ⟨(c8_classify_partition c8Rows).1,
   (c8_classify_partition c8Rows).2.1 c8KitRow (by decide),
   (c8_classify_partition c8Rows).2.2.1 c8SingleRow (by decide)⟩

/-! ## Dialogue-handler claims -/

/-- C9: in the `await_pro_article` and `await_cart_article` steps, an empty
or whitespace-only text makes `text.split()[0]` raise (`firstToken` is
`none`) before any state change or send, so the handler takes the caught
fault path: the user receives the generic error message (the `except`
reply, send number 0, which the oracle must deliver) and the session —
language and step — is exactly what it was before the event. -/
theorem c9_blank_input_fault (idx : CatalogIndex) (lang stp text : String) (ok : Nat → Bool)
    (hstep : stp = "await_pro_article" ∨ stp = "await_cart_article")
    (htext : pyTokens (pyStrip text) = [])
    (hok : ok 0 = true) :
    handle_text idx text ok ⟨⟨lang, stp⟩, [], 0⟩
      = ⟨⟨lang, stp⟩, [Msg.templ lang "error" []], 1⟩ := by
  have htok : firstToken (pyStrip text) = none := by simp [firstToken, htext]
  rcases hstep with h | h <;> subst h <;>
    simp [handle_text, htok, exceptReply, trySend, hok]

/-- C9 (witness): a whitespace-only input in `await_pro_article` yields the
error reply and leaves the step unchanged. -/
theorem c9_blank_input_witness :
    handle_text (build []) "   " okAll ⟨⟨"ru", "await_pro_article"⟩, [], 0⟩
      = ⟨⟨"ru", "await_pro_article"⟩, [Msg.templ "ru" "error" []], 1⟩ :=
  c9_blank_input_fault (build []) "ru" "await_pro_article" "   " okAll
    (Or.inl rfl) (by decide) rfl

/-- C4 (counterexample): with the prior session `(ru, main_menu)`, the
selection token `"menu_pro"` whose message delivery faults leaves the user
with the generic error message but with step `"await_pro_article"` — not
the pre-event step `"main_menu"`: `handle_callback` mutates the step
before awaiting delivery (lines 371-372), so the session is *not*
preserved across the fault. -/
theorem c4_fault_state_counterexample :
    handle_callback (build []) "menu_pro" failFirstSend ⟨⟨"ru", "main_menu"⟩, [], 0⟩
      = ⟨⟨"ru", "await_pro_article"⟩, [Msg.templ "ru" "error" []], 2⟩
    ∧ ("await_pro_article" : String) ≠ "main_menu" :=
  ⟨by decide, by decide⟩

/-- C4 (amended): when an unexpected fault hits the handler, the user does
receive the generic localized error message, but the session is left
exactly as the mutations already executed at the fault point left it —
not rolled back, and not uniformly preserved either.  Concretely, for a
fault in the branch's first awaited delivery: the seven simple menu
tokens set the step *before* awaiting delivery, so the fault leaves the
branch's new step; the `sys_*` and `sysfromcart_*` selection branches
await the system-info send *before* `set_user_step` (lines 402-428), so
there the fault leaves the pre-event session unchanged.  The language is
untouched by all these branches. -/
theorem c4_fault_keeps_mutations (idx : CatalogIndex) (sess : Session) :
    (∀ d st, (d, st) ∈ [("menu_regular", "regular_menu"), ("menu_pro", "await_pro_article"),
                    ("menu_lang", "choose_language"), ("back_main", "main_menu"),
                    ("reg_sys_name", "await_sys_name"), ("reg_cart_art", "await_cart_article"),
                    ("reg_cart_name", "await_cart_name")] →
        handle_callback idx d failFirstSend ⟨sess, [], 0⟩
          = ⟨⟨sess.lang, st⟩, [Msg.templ sess.lang "error" []], 2⟩)
    ∧ (∀ d, strStarts d "lang_" = false → d ≠ "menu_regular" → d ≠ "menu_pro" →
        d ≠ "menu_lang" → d ≠ "back_main" → d ≠ "reg_sys_name" → d ≠ "reg_cart_art" →
        d ≠ "reg_cart_name" → strStarts d "sys_" = true →
        handle_callback idx d failFirstSend ⟨sess, [], 0⟩
          = ⟨sess, [Msg.templ sess.lang "error" []], 2⟩)
    ∧ (∀ d sa ca, strStarts d "lang_" = false → d ≠ "menu_regular" → d ≠ "menu_pro" →
        d ≠ "menu_lang" → d ≠ "back_main" → d ≠ "reg_sys_name" → d ≠ "reg_cart_art" →
        d ≠ "reg_cart_name" → strStarts d "sys_" = false →
        strStarts d "sysfromcart_" = true →
        splitFirstUnder (pyDrop d 12) = some (sa, ca) →
        handle_callback idx d failFirstSend ⟨sess, [], 0⟩
          = ⟨sess, [Msg.templ sess.lang "error" []], 2⟩) := by
  refine ⟨?_, ?_, ?_⟩
  · intro d st h
    simp only [List.mem_cons, List.not_mem_nil, or_false, Prod.mk.injEq] at h
    rcases h with ⟨rfl, rfl⟩ | ⟨rfl, rfl⟩ | ⟨rfl, rfl⟩ | ⟨rfl, rfl⟩ |
      ⟨rfl, rfl⟩ | ⟨rfl, rfl⟩ | ⟨rfl, rfl⟩ <;>
      simp [handle_callback, strStarts, prefixOfCh, sendThen, trySend, exceptReply, withStep,
        failFirstSend]
  · intro d h1 h2 h3 h4 h5 h6 h7 h8 h9
    simp [handle_callback, h1, h2, h3, h4, h5, h6, h7, h8, h9, sendThen, trySend,
      exceptReply, failFirstSend]
  · intro d sa ca h1 h2 h3 h4 h5 h6 h7 h8 h9 h10 h11
    simp [handle_callback, h1, h2, h3, h4, h5, h6, h7, h8, h9, h10, h11, sendThen, trySend,
      exceptReply, failFirstSend]

/-- C4 (witness): the amended fault semantics at concrete tokens of each
shape — a simple menu token keeps its newly-set step across the fault,
while `sys_`/`sysfromcart_` tokens keep the pre-event step. -/
theorem c4_fault_witness :
    handle_callback (build []) "menu_regular" failFirstSend ⟨⟨"ru", "main_menu"⟩, [], 0⟩
      = ⟨⟨"ru", "regular_menu"⟩, [Msg.templ "ru" "error" []], 2⟩
    ∧ handle_callback (build []) "sys_20001" failFirstSend
        ⟨⟨"ru", "await_choose_system_for_name"⟩, [], 0⟩
      = ⟨⟨"ru", "await_choose_system_for_name"⟩, [Msg.templ "ru" "error" []], 2⟩
    ∧ handle_callback (build []) "sysfromcart_20001_27008" failFirstSend
        ⟨⟨"ru", "await_choose_system_for_cart"⟩, [], 0⟩
      = ⟨⟨"ru", "await_choose_system_for_cart"⟩, [Msg.templ "ru" "error" []], 2⟩ :=
  ⟨(c4_fault_keeps_mutations (build []) ⟨"ru", "main_menu"⟩).1 "menu_regular" "regular_menu"
     (by decide),
   (c4_fault_keeps_mutations (build []) ⟨"ru", "await_choose_system_for_name"⟩).2.1 "sys_20001"
     (by decide) (by decide) (by decide) (by decide) (by decide) (by decide) (by decide)
     (by decide) (by decide),
   (c4_fault_keeps_mutations (build []) ⟨"ru", "await_choose_system_for_cart"⟩).2.2
     "sysfromcart_20001_27008" "20001" "27008"
     (by decide) (by decide) (by decide) (by decide) (by decide) (by decide) (by decide)
     (by decide) (by decide) (by decide) (by decide)⟩

/-- C5 counterexample input: the sheet's decimal artifact on the cartridge
article. -/
def c5Rows : List Row := [⟨some "20001.0", some "Sys", some "27008.0", some "CBC 10", none⟩]

/-- C5 (counterexample): the index holds rows under the normalized
cartridge article `"27008"`, yet the `await_cart_article` step on input
`"27008.0"` reports "no cartridges found": the lookup of line 514 uses the
raw first token with no decimal stripping, contradicting the claim that a
query like `"27008.0"` finds the rows indexed under `"27008"`. -/
theorem c5_cart_article_counterexample :
    bucketGet (build c5Rows).cartridgesByArticle "27008" ≠ []
    ∧ handle_text (build c5Rows) "27008.0" okAll ⟨⟨"ru", "await_cart_article"⟩, [], 0⟩
        = ⟨⟨"ru", "main_menu"⟩,
           [Msg.templ "ru" "no_cartridges_found" [], menuMsg "ru"], 2⟩ :=
  ⟨by decide, by decide⟩

/-- C5 (amended): the `await_cart_article` lookup is an exact match on the
**raw** first whitespace-delimited token of the input — no decimal-suffix
normalization is applied to the query — and when that raw token is not a
key of the cartridge index the user gets "no cartridges found" and returns
to the main menu. -/
theorem c5_cart_article_exact_raw (idx : CatalogIndex) (lang text tk : String)
    (htok : firstToken (pyStrip text) = some tk)
    (hunknown : bucketGet idx.cartridgesByArticle tk = []) :
    handle_text idx text okAll ⟨⟨lang, "await_cart_article"⟩, [], 0⟩
      = ⟨⟨lang, "main_menu"⟩,
         [Msg.templ lang "no_cartridges_found" [], menuMsg lang], 2⟩ := by
  simp [handle_text, htok, hunknown, sendThen, trySend, okAll, withStep, menuMsg]

/-- C5 (witness): the amended theorem at a concrete unknown raw token. -/
theorem c5_cart_article_witness :
    handle_text (build []) "27008.0" okAll ⟨⟨"ru", "await_cart_article"⟩, [], 0⟩
      = ⟨⟨"ru", "main_menu"⟩,
         [Msg.templ "ru" "no_cartridges_found" [], menuMsg "ru"], 2⟩ :=
  c5_cart_article_exact_raw (build []) "ru" "27008.0" "27008.0" (by decide) (by decide)

/-- C6 counterexample input: a row with a cartridge article and a matching
cartridge name but no system name, so it is dropped at indexing while
remaining in `all_rows`. -/
def c6Rows : List Row := [⟨some "20001", none, some "27008", some "CBC 10", none⟩]

/-- C6 (counterexample): the name query `"CBC"` matches exactly one
distinct cartridge article (`"27008"`), but the `await_cart_name` flow
does **not** proceed as `await_cart_article` would on `"27008"`: the
cartridge article is absent from the index (its row was dropped), and the
cart-name path lacks the empty-rows guard of line 516, so it emits the
system-disambiguation prompt (with only a back button) and moves to
`await_choose_system_for_cart`, while `await_cart_article` reports
"no cartridges found" and returns to the main menu. -/
theorem c6_cart_name_counterexample :
    matchedCartArts (build c6Rows).allRows (normalize_name (pyStrip "CBC")) = ["27008"]
    ∧ (handle_text (build c6Rows) "CBC" okAll ⟨⟨"ru", "await_cart_name"⟩, [], 0⟩).sess.step
        = "await_choose_system_for_cart"
    ∧ (handle_text (build c6Rows) "27008" okAll
        ⟨⟨"ru", "await_cart_article"⟩, [], 0⟩).sess.step = "main_menu"
    ∧ handle_text (build c6Rows) "CBC" okAll ⟨⟨"ru", "await_cart_name"⟩, [], 0⟩
        ≠ handle_text (build c6Rows) "27008" okAll ⟨⟨"ru", "await_cart_article"⟩, [], 0⟩ :=
  ⟨by decide, by decide, by decide, by decide⟩

/-- C6 (amended): in `await_cart_name`, more than one distinct matched
cartridge article is reported as "no cartridges found" with a return to
the main menu and no disambiguation list (the only sends are those two
template messages); exactly one matched article proceeds exactly as
`await_cart_article` does on that article **provided** the article is a
whitespace-free token that is present in the cartridge index (rows
non-empty) — without that proviso the flows diverge, as the
counterexample shows. -/
theorem c6_cart_name_semantics (idx : CatalogIndex) (lang text : String) :
    (1 < (matchedCartArts idx.allRows (normalize_name (pyStrip text))).length →
       handle_text idx text okAll ⟨⟨lang, "await_cart_name"⟩, [], 0⟩
         = ⟨⟨lang, "main_menu"⟩,
            [Msg.templ lang "no_cartridges_found" [], menuMsg lang], 2⟩)
    ∧ (∀ a, matchedCartArts idx.allRows (normalize_name (pyStrip text)) = [a] →
         bucketGet idx.cartridgesByArticle a ≠ [] →
         firstToken (pyStrip a) = some a →
         handle_text idx text okAll ⟨⟨lang, "await_cart_name"⟩, [], 0⟩
           = handle_text idx a okAll ⟨⟨lang, "await_cart_article"⟩, [], 0⟩) := by
  constructor
  · intro h
    rcases hm : matchedCartArts idx.allRows (normalize_name (pyStrip text))
      with _ | ⟨x, _ | ⟨y, rest⟩⟩
    · rw [hm] at h; simp at h
    · rw [hm] at h; simp at h
    · simp [handle_text, hm, sendThen, trySend, okAll, withStep, menuMsg]
  · intro a hm hrows htok
    rcases hb : bucketGet idx.cartridgesByArticle a with _ | ⟨r0, rs⟩
    · exact absurd hb hrows
    · simp [handle_text, hm, htok, hb, sendThen, trySend, okAll, withStep, menuMsg]

/-- C6 witness input: a well-formed row whose cartridge article is indexed. -/
def c6wRows : List Row := [⟨some "20001.0", some "Sys", some "27008", some "CBC 10", none⟩]

/-- C6 (witness): with the single matched article present in the index, the
cart-name flow on `"CBC"` equals the cart-article flow on `"27008"`. -/
theorem c6_cart_name_witness :
    handle_text (build c6wRows) "CBC" okAll ⟨⟨"ru", "await_cart_name"⟩, [], 0⟩
      = handle_text (build c6wRows) "27008" okAll ⟨⟨"ru", "await_cart_article"⟩, [], 0⟩ :=
  (c6_cart_name_semantics (build c6wRows) "ru" "CBC").2 "27008"
    (by decide) (by decide) (by decide)

/-- C7 (counterexample): in the resting state `main_menu`, the unrecognized
selection token `"bogus"` does **not** re-render the main menu: the
callback handler has no fallback branch, so it sends nothing and leaves
the session untouched. -/
theorem c7_unrecognized_counterexample :
    handle_callback (build []) "bogus" okAll ⟨⟨"ru", "main_menu"⟩, [], 0⟩
      = ⟨⟨"ru", "main_menu"⟩, [], 0⟩
    ∧ (handle_callback (build []) "bogus" okAll ⟨⟨"ru", "main_menu"⟩, [], 0⟩).sent
        ≠ [menuMsg "ru"] :=
  ⟨by decide, by decide⟩

/-- C7 (amended): in a resting state (`main_menu`, `regular_menu`,
`choose_language`), unrecognized **free text** re-renders the main menu
(that render is the only message) and sets the step to `main_menu`; an
unrecognized **selection token** — matching no prefix and no exact token —
produces no message at all and leaves the session unchanged. -/
theorem c7_unrecognized_inputs (idx : CatalogIndex) (sess : Session) (text data : String)
    (hstep : sess.step = "main_menu" ∨ sess.step = "regular_menu"
      ∨ sess.step = "choose_language")
    (h1 : strStarts data "lang_" = false)
    (h2 : data ≠ "menu_regular") (h3 : data ≠ "menu_pro") (h4 : data ≠ "menu_lang")
    (h5 : data ≠ "back_main") (h6 : data ≠ "reg_sys_name") (h7 : data ≠ "reg_cart_art")
    (h8 : data ≠ "reg_cart_name")
    (h9 : strStarts data "sys_" = false) (h10 : strStarts data "sysfromcart_" = false) :
    handle_text idx text okAll ⟨sess, [], 0⟩
      = ⟨⟨sess.lang, "main_menu"⟩, [menuMsg sess.lang], 1⟩
    ∧ handle_callback idx data okAll ⟨sess, [], 0⟩ = ⟨sess, [], 0⟩ := by
  obtain ⟨l, st⟩ := sess
  constructor
  · rcases hstep with h | h | h <;> (simp only [] at h; subst h) <;>
      simp [handle_text, sendThen, trySend, okAll, withStep, menuMsg]
  · simp [handle_callback, h1, h2, h3, h4, h5, h6, h7, h8, h9, h10]

/-- C7 (witness): the amended behavior at a concrete resting session,
free text and unknown token. -/
theorem c7_unrecognized_witness :
    handle_text (build []) "hello" okAll ⟨⟨"ru", "main_menu"⟩, [], 0⟩
      = ⟨⟨"ru", "main_menu"⟩, [menuMsg "ru"], 1⟩
    ∧ handle_callback (build []) "zzz" okAll ⟨⟨"ru", "main_menu"⟩, [], 0⟩
      = ⟨⟨"ru", "main_menu"⟩, [], 0⟩ :=
  c7_unrecognized_inputs (build []) ⟨"ru", "main_menu"⟩ "hello" "zzz"
    (Or.inl rfl) (by decide) (by decide) (by decide) (by decide) (by decide)
    (by decide) (by decide) (by decide) (by decide) (by decide)
